import Mathlib

/-!
Verification of `src/fspath.py` (k7hoven/path-pep).

The source defines one abstract marker class `FSPathABC` (one abstract
method `__fspath__`) and a single function:

  def fspath(path, *, type_constraint = str):
      if isinstance(path, type_constraint):
          return path
      if hasattr(path, '__fspath__'):
          pathstring = path.__fspath__()
      else:
          raise TypeError("path must implement __fspath__() or be an instance of type_constraint")
      if not isinstance(pathstring, type_constraint):
          type_name = type(pathstring).__name__
          raise TypeError("__fspath__() must return a str or bytes, not " + type_name)
      return pathstring

Shallow embedding: a Python value is modelled by its runtime type name,
the set (list) of type names it is an instance of (its class and all its
superclasses, so `isinstance` with subtype acceptance is membership), and
its `__fspath__` attribute, which is either absent or present; a present
attribute, invoked with zero arguments, deterministically returns a fixed
value (the claims assume a deterministic, side-effect-free `__fspath__`).
A type constraint is identified by its type name (default `"str"`).
`raise TypeError(m)` becomes `Except.error (PyErr.typeError m)`.
`fspathRun` additionally counts how many times `__fspath__` is invoked,
so that claims about the number of invocations can be stated.
-/

/-- A Python value: either an object without a `__fspath__` attribute, or
an object whose zero-argument `__fspath__()` returns the given value.
`typeName` is `type(v).__name__`; `instOf` lists the type names `t` with
`isinstance(v, t)` true (the value's class and all its superclasses). -/
inductive PyVal : Type where
  | plain (typeName : String) (instOf : List String)
  | withFspath (typeName : String) (instOf : List String) (ret : PyVal)
deriving DecidableEq, Repr

/-- `type(v).__name__`. -/
def PyVal.typeName : PyVal → String
  | .plain n _ => n
  | .withFspath n _ _ => n

/-- The type names `v` is an instance of. -/
def PyVal.instOf : PyVal → List String
  | .plain _ l => l
  | .withFspath _ l _ => l

/-- The `__fspath__` attribute: `none` models `hasattr(v, '__fspath__')`
being false, `some r` models the attribute being present with the
zero-argument call returning `r`. -/
def PyVal.fspathAttr : PyVal → Option PyVal
  | .plain _ _ => none
  | .withFspath _ _ r => some r

/-- `isinstance(v, t)` for the type named `t`: membership of `t` among
the types `v` is an instance of (subtypes of the constraint accepted). -/
def isinstance (v : PyVal) (t : String) : Bool :=
  decide (t ∈ v.instOf)

/-- The single error kind of the source: `TypeError` with a message. -/
inductive PyErr : Type where
  | typeError (msg : String)
deriving DecidableEq, Repr

/-- The body of `fspath(path, *, type_constraint)`, instrumented with the
number of `__fspath__` invocations performed.  Mirrors the source line by
line: fast path on `isinstance`, then `hasattr`/call or raise, then
result validation with the runtime type name interpolated. -/
def fspathRun (path : PyVal) (type_constraint : String) :
    Except PyErr PyVal × Nat :=
  if isinstance path type_constraint then
    (Except.ok path, 0)
  else
    match path.fspathAttr with
    | some pathstring =>
      if isinstance pathstring type_constraint then
        (Except.ok pathstring, 1)
      else
        (Except.error (PyErr.typeError
          ("__fspath__() must return a str or bytes, not "
            ++ pathstring.typeName)), 1)
    | none =>
      (Except.error (PyErr.typeError
        "path must implement __fspath__() or be an instance of type_constraint"), 0)

/-- `fspath(path, type_constraint=tc)`: the returned value or raised error. -/
def fspath (path : PyVal) (type_constraint : String) : Except PyErr PyVal :=
  (fspathRun path type_constraint).1

/-- `fspath(path)` with the default keyword argument `type_constraint = str`. -/
def fspathDefault (path : PyVal) : Except PyErr PyVal :=
  fspath path "str"

/-- Number of `__fspath__()` invocations a call performs. -/
def fspathCalls (path : PyVal) (type_constraint : String) : Nat :=
  (fspathRun path type_constraint).2

/-- A plain string value such as `"a/b/c"`. -/
def strVal : PyVal := PyVal.plain "str" ["str"]

/-- A plain byte-string value such as `b"x/y"`. -/
def bytesVal : PyVal := PyVal.plain "bytes" ["bytes"]

/-- The integer `42`: no `__fspath__`, instance only of `int`. -/
def int42 : PyVal := PyVal.plain "int" ["int"]

/-- An object of a class `P` whose `__fspath__()` returns `r`. -/
def pObj (r : PyVal) : PyVal := PyVal.withFspath "P" ["P"] r

/-- Claim C1: if `path` satisfies the is-instance-of check against the
type constraint, `fspath` returns it unchanged (the very value it was
given), with no invocation of `__fspath__`; in particular every string
under the default constraint, and every byte-string under
`type_constraint=bytes`, is returned as-is. -/
theorem fspath_fastpath_identity (v : PyVal) (tc : String)
    (h : isinstance v tc = true) :
    fspath v tc = Except.ok v ∧ fspathCalls v tc = 0 := by
  simp [fspath, fspathCalls, fspathRun, h]

/-- Witness for C1: the concrete string value under the default
constraint, and the concrete byte-string under `bytes`. -/
theorem fspath_fastpath_identity_witness :
    fspath strVal "str" = Except.ok strVal ∧
    fspath bytesVal "bytes" = Except.ok bytesVal :=
  ⟨(fspath_fastpath_identity strVal "str" (by decide)).1,
   (fspath_fastpath_identity bytesVal "bytes" (by decide)).1⟩

/-- Claim C2: if `o` is not an instance of the constraint but has a
`__fspath__` attribute whose call returns `s`, and `s` is an instance of
the constraint, then `fspath` invokes `__fspath__` exactly once and
returns `s`. -/
theorem fspath_capability_dispatch (o s : PyVal) (tc : String)
    (h1 : isinstance o tc = false) (h2 : o.fspathAttr = some s)
    (h3 : isinstance s tc = true) :
    fspath o tc = Except.ok s ∧ fspathCalls o tc = 1 := by
  simp [fspath, fspathCalls, fspathRun, h1, h2, h3]

/-- Witness for C2: an object of class `P` whose `__fspath__()` returns
the string value, under the default constraint. -/
theorem fspath_capability_dispatch_witness :
    fspath (pObj strVal) "str" = Except.ok strVal ∧
    fspathCalls (pObj strVal) "str" = 1 :=
  fspath_capability_dispatch (pObj strVal) strVal "str"
    (by decide) rfl (by decide)

/-- Claim C3: `fspath` raises a `TypeError` iff the input is not an
instance of the constraint and either lacks `__fspath__` or its
`__fspath__()` result is not an instance of the constraint; in every
other case it returns normally, and any returned value is an instance of
(a subtype of) the constraint. -/
theorem fspath_typeerror_iff (p : PyVal) (tc : String) :
    ((∃ msg, fspath p tc = Except.error (PyErr.typeError msg)) ↔
      (isinstance p tc = false ∧
        (p.fspathAttr = none ∨
          ∃ s, p.fspathAttr = some s ∧ isinstance s tc = false))) ∧
    (∀ r, fspath p tc = Except.ok r → isinstance r tc = true) := by
  unfold fspath fspathRun
  rcases hinst : isinstance p tc with _ | _
  · rcases hattr : p.fspathAttr with _ | s
    · simp [hinst, hattr]
    · rcases hs : isinstance s tc with _ | _ <;> simp_all
  · simp [hinst]

/-- Witness for C3: instantiated at the integer `42` under the default
constraint, where the error side of the biconditional holds, and at the
string value, where the success side pins the returned value's type. -/
theorem fspath_typeerror_iff_witness :
    (∃ msg, fspath int42 "str" = Except.error (PyErr.typeError msg)) ∧
    isinstance strVal "str" = true :=
  ⟨(fspath_typeerror_iff int42 "str").1.2 ⟨by decide, Or.inl rfl⟩,
   (fspath_typeerror_iff strVal "str").2 strVal
     ((fspath_fastpath_identity strVal "str" (by decide)).1)⟩

/-- Counterexample for C4: at the integer `42` under the default
constraint, the raised `TypeError` does not carry the message the claim
states ("path must implement the path-representation operation or be an
instance of the type constraint."); the source raises the message "path
must implement __fspath__() or be an instance of type_constraint". -/
theorem fspath_no_capability_message_counterexample :
    fspath int42 "str" ≠
      Except.error (PyErr.typeError
        "path must implement the path-representation operation or be an instance of the type constraint.") ∧
    fspath int42 "str" =
      Except.error (PyErr.typeError
        "path must implement __fspath__() or be an instance of type_constraint") := by
  refine ⟨fun h => ?_, rfl⟩
  rw [show fspath int42 "str" =
        Except.error (PyErr.typeError
          "path must implement __fspath__() or be an instance of type_constraint")
      from rfl] at h
  simp only [Except.error.injEq, PyErr.typeError.injEq] at h
  exact absurd h (by decide)

/-- Claim C4 as amended: for every value that is neither an instance of
the constraint nor has `__fspath__`, `fspath` raises a `TypeError` with
the message "path must implement __fspath__() or be an instance of
type_constraint", and `__fspath__` is never invoked (the model has no
other attribute to access). -/
theorem fspath_no_capability_error (p : PyVal) (tc : String)
    (h1 : isinstance p tc = false) (h2 : p.fspathAttr = none) :
    fspath p tc =
      Except.error (PyErr.typeError
        "path must implement __fspath__() or be an instance of type_constraint") ∧
    fspathCalls p tc = 0 := by
  simp [fspath, fspathCalls, fspathRun, h1, h2]

/-- Witness for the amended C4: the integer `42` under the default
constraint. -/
theorem fspath_no_capability_error_witness :
    fspath int42 "str" =
      Except.error (PyErr.typeError
        "path must implement __fspath__() or be an instance of type_constraint") ∧
    fspathCalls int42 "str" = 0 :=
  fspath_no_capability_error int42 "str" (by decide) rfl

/-- Claim C5: when `__fspath__()` returns a value that is not an instance
of the constraint, `fspath` raises a `TypeError` whose message names the
actual runtime type of that returned value (its `__name__` is appended to
the message text). -/
theorem fspath_bad_return_names_type (o s : PyVal) (tc : String)
    (h1 : isinstance o tc = false) (h2 : o.fspathAttr = some s)
    (h3 : isinstance s tc = false) :
    fspath o tc =
      Except.error (PyErr.typeError
        ("__fspath__() must return a str or bytes, not " ++ s.typeName)) := by
  simp [fspath, fspathRun, h1, h2, h3]

/-- Witness for C5: an object whose `__fspath__()` returns the integer
`42` under the default constraint is rejected with a message mentioning
`int`. -/
theorem fspath_bad_return_names_type_witness :
    fspath (pObj int42) "str" =
      Except.error (PyErr.typeError
        "__fspath__() must return a str or bytes, not int") :=
  fspath_bad_return_names_type (pObj int42) int42 "str"
    (by decide) rfl (by decide)

/-- Claim C6: `fspath` is idempotent under a fixed constraint: whenever
it succeeds, its output already satisfies the fast-path instance check,
so a second application returns its argument unchanged. -/
theorem fspath_idempotent (o r : PyVal) (tc : String)
    (h : fspath o tc = Except.ok r) :
    isinstance r tc = true ∧ fspath r tc = Except.ok r := by
  unfold fspath fspathRun at h ⊢
  rcases hinst : isinstance o tc with _ | _
  · rcases hattr : o.fspathAttr with _ | s
    · simp [hinst, hattr] at h
    · rcases hs : isinstance s tc with _ | _ <;> simp_all
  · simp [hinst] at h
    subst h
    simp [hinst]

/-- Witness for C6: the capability object returning the string value;
the second application fixes the string. -/
theorem fspath_idempotent_witness :
    isinstance strVal "str" = true ∧ fspath strVal "str" = Except.ok strVal :=
  fspath_idempotent (pObj strVal) strVal "str" rfl

/-- Remove the abstract marker name `"FSPathABC"` from a list of type
names. -/
def withoutABC (l : List String) : List String :=
  l.filter (fun t => t ≠ "FSPathABC")

/-- The same value with its class made (`b = true`) or not made
(`b = false`) a formal subtype of the abstract marker `FSPathABC`;
everything else (runtime type name, the other superclasses, the
`__fspath__` attribute and its result) is unchanged. -/
def setABC : PyVal → Bool → PyVal
  | .plain n l, b =>
      .plain n (withoutABC l ++ if b then ["FSPathABC"] else [])
  | .withFspath n l r, b =>
      .withFspath n (withoutABC l ++ if b then ["FSPathABC"] else []) r

/-- Forget whether a value's class formally subtypes `FSPathABC`. -/
def eraseABC (v : PyVal) : PyVal := setABC v false

theorem setABC_fspathAttr (v : PyVal) (b : Bool) :
    (setABC v b).fspathAttr = v.fspathAttr := by
  cases v <;> rfl

theorem isinstance_setABC (v : PyVal) (b : Bool) (tc : String)
    (h : tc ≠ "FSPathABC") :
    isinstance (setABC v b) tc = isinstance v tc := by
  cases v <;> cases b <;>
    simp [isinstance, setABC, withoutABC, PyVal.instOf, List.mem_filter, h,
      decide_eq_decide]

theorem eraseABC_setABC (v : PyVal) (b : Bool) :
    eraseABC (setABC v b) = eraseABC v := by
  cases v <;> cases b <;>
    simp [eraseABC, setABC, withoutABC, List.filter_append, List.filter_filter]

/-- The twin objects for C7: same class `P`, same `__fspath__()` result
(the string value); one formally subtypes the abstract marker, the other
does not. -/
def abcTwinFalse : PyVal := PyVal.withFspath "P" ["P"] strVal

/-- See `abcTwinFalse`. -/
def abcTwinTrue : PyVal := PyVal.withFspath "P" ["P", "FSPathABC"] strVal

/-- Counterexample for C7: the claim quantifies over every type
constraint, but with `type_constraint = FSPathABC` itself the `isinstance`
fast path does consult the marker: the inheriting twin is returned
unchanged while the structurally identical non-inheriting twin (same
`__fspath__` returning a string) raises a `TypeError`, so not inheriting
from `FSPathABC` does by itself cause a failure there. -/
theorem fspath_abc_marker_counterexample :
    setABC abcTwinFalse true = abcTwinTrue ∧
    abcTwinTrue.fspathAttr = abcTwinFalse.fspathAttr ∧
    fspath abcTwinTrue "FSPathABC" = Except.ok abcTwinTrue ∧
    fspath abcTwinFalse "FSPathABC" =
      Except.error (PyErr.typeError
        "__fspath__() must return a str or bytes, not str") :=
  ⟨rfl, rfl, rfl, rfl⟩

/-- Claim C7 as amended: for every type constraint other than the
`FSPathABC` marker itself, `fspath` behaves identically whether or not
the argument's class formally subtypes `FSPathABC`: the number of
`__fspath__` invocations is the same and the outcome is the same up to
the marker membership of the returned value (errors, including their
messages, are exactly equal); `fspath`'s own code never names the
marker — it is consulted only when the caller passes it as the
constraint of the `isinstance` checks. -/
theorem fspath_ignores_abc_marker (v : PyVal) (b : Bool) (tc : String)
    (h : tc ≠ "FSPathABC") :
    fspathCalls (setABC v b) tc = fspathCalls v tc ∧
    Except.map eraseABC (fspath (setABC v b) tc) =
      Except.map eraseABC (fspath v tc) := by
  have hinst := isinstance_setABC v b tc h
  have hattr := setABC_fspathAttr v b
  unfold fspathCalls fspath fspathRun
  rw [hinst, hattr]
  rcases h1 : isinstance v tc with _ | _
  · rcases h2 : v.fspathAttr with _ | s
    · simp
    · rcases h3 : isinstance s tc with _ | _ <;> simp
  · simp [Except.map, eraseABC_setABC]

/-- Witness for the amended C7: the non-inheriting twin under the default
`str` constraint behaves like its inheriting version. -/
theorem fspath_ignores_abc_marker_witness :
    fspathCalls (setABC abcTwinFalse true) "str" =
      fspathCalls abcTwinFalse "str" ∧
    Except.map eraseABC (fspath (setABC abcTwinFalse true) "str") =
      Except.map eraseABC (fspath abcTwinFalse "str") :=
  fspath_ignores_abc_marker abcTwinFalse true "str" (by decide)

/-- Claim C8: `fspath` is a pure, stateless, deterministic function of
its arguments (the embedding is a pure function, so two calls with equal
arguments — including an equal, deterministic `__fspath__` attribute —
have equal outcomes), and the only possible effect, invoking the
argument's `__fspath__`, happens at most once per call. -/
theorem fspath_pure_deterministic (p q : PyVal) (tc tc2 : String)
    (hp : p = q) (ht : tc = tc2) :
    fspathRun p tc = fspathRun q tc2 ∧ fspathCalls p tc ≤ 1 := by
  subst hp
  subst ht
  refine ⟨rfl, ?_⟩
  rcases h1 : isinstance p tc with _ | _
  · rcases h2 : p.fspathAttr with _ | s
    · simp [fspathCalls, fspathRun, h1, h2]
    · rcases h3 : isinstance s tc with _ | _ <;>
        simp [fspathCalls, fspathRun, h1, h2, h3]
  · simp [fspathCalls, fspathRun, h1]

/-- Witness for C8: two runs on the string value under the default
constraint coincide. -/
theorem fspath_pure_deterministic_witness :
    fspathRun strVal "str" = fspathRun strVal "str" ∧
    fspathCalls strVal "str" ≤ 1 :=
  fspath_pure_deterministic strVal strVal "str" "str" rfl rfl

/-- An object of a class `Q` whose `__fspath__()` returns a byte-string. -/
def qObjBytes : PyVal := PyVal.withFspath "Q" ["Q"] bytesVal

/-- Claim C9: the result-validation message is the fixed text
"__fspath__() must return a str or bytes, not " followed by the actual
type's name, for every type constraint; in particular under the default
`str` constraint a `__fspath__()` result of type `bytes` is rejected even
though the message names bytes as acceptable. -/
theorem fspath_validation_message_fixed :
    (∀ (o s : PyVal) (tc : String), isinstance o tc = false →
      o.fspathAttr = some s → isinstance s tc = false →
      fspath o tc = Except.error (PyErr.typeError
        ("__fspath__() must return a str or bytes, not " ++ s.typeName))) ∧
    fspath qObjBytes "str" =
      Except.error (PyErr.typeError
        "__fspath__() must return a str or bytes, not bytes") := by
  constructor
  · intro o s tc h1 h2 h3
    simp [fspath, fspathRun, h1, h2, h3]
  · rfl

/-- Witness for C9: an object of class `R` whose `__fspath__()` returns
the integer, under `type_constraint=bytes`: the message still uses the
same fixed text. -/
theorem fspath_validation_message_fixed_witness :
    fspath (PyVal.withFspath "R" ["R"] int42) "bytes" =
      Except.error (PyErr.typeError
        ("__fspath__() must return a str or bytes, not " ++ int42.typeName)) :=
  fspath_validation_message_fixed.1 (PyVal.withFspath "R" ["R"] int42)
    int42 "bytes" rfl rfl rfl

/-- A subclass of `str` that also defines `__fspath__` (returning some
other value). -/
def strSub : PyVal := PyVal.withFspath "MyStr" ["MyStr", "str"] bytesVal

/-- Claim C10: the fast path takes strict precedence: a value that is an
instance of the constraint is returned unchanged even when it has a
`__fspath__` attribute, and `__fspath__` is never invoked. -/
theorem fspath_fastpath_precedence (v s : PyVal) (tc : String)
    (h1 : isinstance v tc = true) (_h2 : v.fspathAttr = some s) :
    fspath v tc = Except.ok v ∧ fspathCalls v tc = 0 := by
  simp [fspath, fspathCalls, fspathRun, h1]

/-- Witness for C10: a `str` subclass defining `__fspath__` under the
default constraint is returned as-is, with zero invocations. -/
theorem fspath_fastpath_precedence_witness :
    fspath strSub "str" = Except.ok strSub ∧ fspathCalls strSub "str" = 0 :=
  fspath_fastpath_precedence strSub bytesVal "str" rfl rfl
